import Mathlib

/-!
Shallow embedding of `covid.py`, a Streamlit dashboard over the WHO COVID-19
per-country daily time series.  The embedding models:

* the pandas float semantics needed by the dashboard (`PyFloat`: a rational,
  plus `inf`, `-inf` and `NaN`, as produced by division and `fillna`),
* the cleaned data rows (`Obs`) and the aggregations computed in `main`
  (growth-rate via `pct_change`, per-date group sums, combined vs rest-of-world
  totals, case-fatality ratio, top-N ranking),
* the `preprocess` function over a raw table with possibly missing columns and
  unparseable cells,
* the control flow of `load_data` over abstract source outcomes.

Dates are day numbers (`Nat`); numeric cell values are rationals (`ℚ`), which
is exact for the arithmetic the dashboard performs.
-/

/-- Calendar dates, as day numbers. -/
abbrev Day := Nat

/-- A pandas float value: a (finite) rational, positive or negative infinity,
or NaN.  Division by zero and `fillna` behave as in numpy/pandas. -/
inductive PyFloat where
  | num (q : ℚ)
  | inf
  | neginf
  | nan
deriving DecidableEq

/-- numpy float division `cur / prev` of two finite values:
nonzero denominator divides; `x/0` is `±inf` by the sign of `x`; `0/0` is NaN. -/
def pyDiv (cur prev : ℚ) : PyFloat :=
  if prev ≠ 0 then .num (cur / prev)
  else if 0 < cur then .inf
  else if cur < 0 then .neginf
  else .nan

/-- Subtracting the constant 1, as in `pct_change`'s `cur/prev - 1`. -/
def pySub1 : PyFloat → PyFloat
  | .num q => .num (q - 1)
  | .inf => .inf
  | .neginf => .neginf
  | .nan => .nan

/-- `Series.fillna(0)`: replaces NaN (only NaN, not infinities) by 0. -/
def fillna0 : PyFloat → PyFloat
  | .nan => .num 0
  | x => x

/-- The tail of `Series.pct_change`: given the previous value and the remaining
values, each entry is `cur/prev - 1`. -/
def pctChangeAux : ℚ → List ℚ → List PyFloat
  | _, [] => []
  | prev, cur :: rest => pySub1 (pyDiv cur prev) :: pctChangeAux cur rest

/-- `Series.pct_change()`: the first entry is NaN, entry `i+1` is
`x (i+1) / x i - 1`. -/
def pctChange : List ℚ → List PyFloat
  | [] => []
  | x :: xs => .nan :: pctChangeAux x xs

/-- One cleaned row of the dashboard's working table (`df` after `preprocess`,
with all metric columns present, as required by `main`). -/
structure Obs where
  country : String
  date : Day
  newCases : ℚ
  newDeaths : ℚ
  cumCases : ℚ
  cumDeaths : ℚ
deriving DecidableEq

/-- The sidebar metric selector: `"New_cases"` or `"New_deaths"`. -/
inductive Metric where
  | New_cases
  | New_deaths
deriving DecidableEq

/-- The column of `df` named by the selected metric. -/
def metricVal : Metric → Obs → ℚ
  | .New_cases, r => r.newCases
  | .New_deaths, r => r.newDeaths

/-- `df_c1 = df_f[df_f["Country"] == c1]`: one country's rows of the filtered
window, in window order. -/
def countrySeries (w : List Obs) (c : String) : List Obs :=
  w.filter (fun r => r.country = c)

/-- `df_compare = pd.concat([df_c1.assign(Country=c1), df_c2.assign(Country=c2)])`
(the `assign` is the identity here since the filter already fixed the country). -/
def compareTable (w : List Obs) (c1 c2 : String) : List Obs :=
  countrySeries w c1 ++ countrySeries w c2

/-- The rows of `df_compare` falling in the `groupby("Country")` group of
country `c`, in row order. -/
def groupRows (w : List Obs) (c1 c2 c : String) : List Obs :=
  (compareTable w c1 c2).filter (fun r => r.country = c)

/-- `df_gr.groupby("Country")[metric].pct_change().fillna(0)`, read off for the
group of country `c`: pct_change runs within each `Country` group of
`df_compare`, in row order, and NaNs are then filled with 0. -/
def growthRateSeries (w : List Obs) (c1 c2 : String) (m : Metric) (c : String) :
    List PyFloat :=
  (pctChange ((groupRows w c1 c2 c).map (metricVal m))).map fillna0

/-- `Series.replace({0: None})` on a numeric column: a zero becomes NaN. -/
def replace0None (q : ℚ) : PyFloat :=
  if q = 0 then .nan else .num q

/-- Division of a finite float by a `PyFloat` (pandas elementwise `/`):
anything divided by NaN is NaN; by an infinity, zero. -/
def pyDivP (x : ℚ) : PyFloat → PyFloat
  | .num p => pyDiv x p
  | .nan => .nan
  | .inf => .num 0
  | .neginf => .num 0

/-- `df_cfr["CFR"] = df_cfr["Cumulative_deaths"] / df_cfr["Cumulative_cases"].replace({0: None})`,
carried alongside its row. -/
def cfrTable (w : List Obs) (c1 c2 : String) : List (Obs × PyFloat) :=
  (compareTable w c1 c2).map
    (fun r => (r, pyDivP r.cumDeaths (replace0None r.cumCases)))

/-- `l.groupby("Date")[metric].sum()`: distinct dates (sorted ascending, as
pandas sorts group keys) paired with the per-date sum of the metric. -/
def dailySum (l : List Obs) (m : Metric) : List (Day × ℚ) :=
  (List.insertionSort (· ≤ ·) ((l.map (·.date)).dedup)).map
    (fun d => (d, ((l.filter (fun r => r.date = d)).map (metricVal m)).sum))

/-- `df_global = df_f.groupby("Date")[["New_cases", "New_deaths"]].sum()`. -/
def globalDaily (w : List Obs) : List (Day × ℚ × ℚ) :=
  (List.insertionSort (· ≤ ·) ((w.map (·.date)).dedup)).map
    (fun d => (d, ((w.filter (fun r => r.date = d)).map (·.newCases)).sum,
                  ((w.filter (fun r => r.date = d)).map (·.newDeaths)).sum))

/-- `total_two = df_two["TwoCountries"].sum()` where
`df_two = df_compare.groupby("Date")[metric].sum()`. -/
def totalTwo (w : List Obs) (c1 c2 : String) (m : Metric) : ℚ :=
  ((dailySum (compareTable w c1 c2) m).map (·.2)).sum

/-- `total_world = df_world["WorldTotal"].sum()` where
`df_world = df_f.groupby("Date")[metric].sum()`. -/
def totalWorld (w : List Obs) (m : Metric) : ℚ :=
  ((dailySum w m).map (·.2)).sum

/-- `total_rest = total_world - total_two`. -/
def totalRest (w : List Obs) (c1 c2 : String) (m : Metric) : ℚ :=
  totalWorld w m - totalTwo w c1 c2 m

/-- The distinct countries of the window (`groupby("Country")` keys, before
the pandas ascending key sort). -/
def countryKeys (w : List Obs) : List String :=
  (w.map (·.country)).dedup

/-- The per-country sum of the metric over the window
(`df_f.groupby("Country")[rank_metric].sum()` at one key). -/
def countryTotal (w : List Obs) (m : Metric) (c : String) : ℚ :=
  ((countrySeries w c).map (metricVal m)).sum

/-- The ordering of `sort_values(rank_metric, ascending=False)`: descending by
the summed metric. -/
def rankLE (a b : String × ℚ) : Prop := b.2 ≤ a.2

instance : DecidableRel rankLE := fun a b => inferInstanceAs (Decidable (b.2 ≤ a.2))

instance : IsTotal (String × ℚ) rankLE := ⟨fun a b => le_total b.2 a.2⟩

instance : IsTrans (String × ℚ) rankLE := ⟨fun _ _ _ h1 h2 => le_trans h2 h1⟩

/-- `df_rank = df_f.groupby("Country")[rank_metric].sum().reset_index()
.sort_values(rank_metric, ascending=False)`: country keys sorted ascending by
the groupby, each paired with its window total, then sorted descending by the
total (a deterministic stable sort stands in for pandas' unspecified tie
order). -/
def rankTable (w : List Obs) (m : Metric) : List (String × ℚ) :=
  List.insertionSort rankLE
    ((List.insertionSort (· ≤ ·) (countryKeys w)).map
      (fun c => (c, countryTotal w m c)))

/-- One iteration of the `for sel in [c1, c2]` loop: if `sel` is not among the
current table's countries, append its `df_rank` row(s). -/
def topAppend (rank top : List (String × ℚ)) (sel : String) : List (String × ℚ) :=
  if sel ∈ top.map (·.1) then top else top ++ rank.filter (fun p => p.1 = sel)

/-- `df_top = df_rank.head(10)` followed by the loop appending each selected
country's rank row when it is not already present. -/
def topTable (w : List Obs) (c1 c2 : String) (m : Metric) : List (String × ℚ) :=
  topAppend (rankTable w m) (topAppend (rankTable w m) ((rankTable w m).take 10) c1) c2

/-- `lambda x: f"{x} (Selected)" if x in [c1, c2] else "Other"`. -/
def selectedTag (c1 c2 x : String) : String :=
  if x = c1 ∨ x = c2 then x ++ " (Selected)" else "Other"

/-- `df_top` with its `Selected` column. -/
def topTagged (w : List Obs) (c1 c2 : String) (m : Metric) :
    List (String × ℚ × String) :=
  (topTable w c1 c2 m).map (fun p => (p.1, p.2, selectedTag c1 c2 p.1))

/-- One cell of a raw numeric source column: a parsed number, a null, or an
unparseable string. -/
inductive RawCell where
  | num (q : ℚ)
  | null
  | bad
deriving DecidableEq

/-- `pd.to_numeric(col, errors="coerce").fillna(0)` at one cell: numbers kept,
nulls and unparseable entries become 0. -/
def toNumericFill0 : RawCell → ℚ
  | .num q => q
  | .null => 0
  | .bad => 0

/-- One raw input row.  `country`/`countryAlt` are the cells of the `Country`
column and of the first other column whose name contains `country` (when those
columns exist); `dateReported` is the `pd.to_datetime(..., errors="coerce")`
outcome of the `Date_reported` cell (`none` = NaT). -/
structure RawRow where
  country : Option String
  countryAlt : Option String
  dateReported : Option Day
  newCases : RawCell
  newDeaths : RawCell
  cumCases : RawCell
  cumDeaths : RawCell
deriving DecidableEq

/-- A raw input table: which columns are present, and the rows. -/
structure RawTable where
  hasCountry : Bool
  hasAltCountry : Bool
  hasDateReported : Bool
  hasNewCases : Bool
  hasNewDeaths : Bool
  hasCumCases : Bool
  hasCumDeaths : Bool
  rows : List RawRow
deriving DecidableEq

/-- One row of `preprocess`'s output.  A numeric field is `none` exactly when
its column was absent from the input (the `if col in df.columns` guard). -/
structure CleanRow where
  country : String
  date : Option Day
  newCases : Option ℚ
  newDeaths : Option ℚ
  cumCases : Option ℚ
  cumDeaths : Option ℚ
deriving DecidableEq

/-- The `Country` cell used for a row: the `Country` column when present, else
the first column containing `country`, else the constant `"Unknown"`. -/
def rawCountry (t : RawTable) (r : RawRow) : Option String :=
  if t.hasCountry then r.country
  else if t.hasAltCountry then r.countryAlt
  else some "Unknown"

/-- Python's `str.strip()`: drop whitespace from both ends of the string. -/
def stripStr (s : String) : String :=
  ⟨((s.data.dropWhile (·.isWhitespace)).reverse.dropWhile (·.isWhitespace)).reverse⟩

/-- The per-row effect of `preprocess`: country goes through
`fillna("Unknown").astype(str).str.strip()`; each numeric column present goes
through `pd.to_numeric(..., errors="coerce").fillna(0)`. -/
def cleanRow (t : RawTable) (r : RawRow) : CleanRow :=
  { country := stripStr ((rawCountry t r).getD "Unknown")
    date := r.dateReported
    newCases := if t.hasNewCases then some (toNumericFill0 r.newCases) else none
    newDeaths := if t.hasNewDeaths then some (toNumericFill0 r.newDeaths) else none
    cumCases := if t.hasCumCases then some (toNumericFill0 r.cumCases) else none
    cumDeaths := if t.hasCumDeaths then some (toNumericFill0 r.cumDeaths) else none }

/-- `preprocess(df)`.  The line `df["Date"] = pd.to_datetime(df["Date_reported"],
errors="coerce").dt.date` indexes the `Date_reported` column unconditionally,
so a table without that column raises a `KeyError`; otherwise every row is
cleaned. -/
def preprocess (t : RawTable) : Except String (List CleanRow) :=
  if t.hasDateReported then .ok (t.rows.map (cleanRow t))
  else .error "KeyError: Date_reported"

/-- The outcome of attempting one data source: the file-not-found class of
failure, any other parse/network failure (with its message), or success. -/
inductive SrcOutcome where
  | notFound
  | otherError (msg : String)
  | ok (rows : List RawRow)
deriving DecidableEq

/-- The environment `load_data` runs in: outcome of the working-directory file,
of the file beside the script, the optional `DATA_URL` override (URL text and
outcome), and the outcome of the hardcoded GitHub raw URL. -/
structure LoadEnv where
  cwdFile : SrcOutcome
  scriptFile : SrcOutcome
  envUrl : Option (String × SrcOutcome)
  githubRaw : SrcOutcome
deriving DecidableEq

/-- How a `load_data` call ends: data returned, `st.error(f"Error reading data
from {p}: {e}"); st.stop()` naming the candidate and the cause, or the final
remediation message followed by `st.stop()`. -/
inductive LoadResult where
  | loaded (rows : List RawRow)
  | errorStop (candidate msg : String)
  | remediationStop
deriving DecidableEq

/-- `"WHO-COVID-19-global-data.csv"`. -/
def whoFilename : String := "WHO-COVID-19-global-data.csv"

/-- `os.path.join(os.path.dirname(__file__), filename)`. -/
def scriptSideFile : String := "<script-dir>/WHO-COVID-19-global-data.csv"

/-- The hardcoded GitHub raw URL. -/
def githubRawUrl : String :=
  "https://raw.githubusercontent.com/Tomifemme/dashboard/main/WHO-COVID-19-global-data.csv"

/-- `try_paths`: working-directory file, file beside the script, and the
`DATA_URL` override when set. -/
def tryPaths (env : LoadEnv) : List (String × SrcOutcome) :=
  [(whoFilename, env.cwdFile), (scriptSideFile, env.scriptFile)] ++
    (match env.envUrl with
     | some (u, o) => [(u, o)]
     | none => [])

/-- The `for p in try_paths` loop: `FileNotFoundError` continues, any other
exception shows the candidate and cause and stops, success returns. `none`
means the loop fell through. -/
def loadLoop : List (String × SrcOutcome) → Option LoadResult
  | [] => none
  | (_, .notFound) :: rest => loadLoop rest
  | (p, .otherError e) :: _ => some (.errorStop p e)
  | (_, .ok rows) :: _ => some (.loaded rows)

/-- `load_data()`: run the loop over `try_paths`; if it falls through, try the
hardcoded GitHub URL under `except Exception`, where any failure at all leads
to the remediation message and `st.stop()`. -/
def load_data (env : LoadEnv) : LoadResult :=
  match loadLoop (tryPaths env) with
  | some r => r
  | none =>
    match env.githubRaw with
    | .ok rows => .loaded rows
    | _ => .remediationStop

/-! ### Concrete inputs used by examples, counterexamples and witnesses -/

/-- A window where Italy has `new_cases` 10, 20, 0 on three consecutive dates
(the spec's end-to-end example). -/
def italyWindow : List Obs :=
  [⟨"Italy", 0, 10, 1, 10, 1⟩, ⟨"Italy", 1, 20, 1, 30, 2⟩, ⟨"Italy", 2, 0, 0, 30, 2⟩]

/-- A window where country `"A"`'s metric series starts with a zero followed by
a positive value: the zero-denominator case of `pct_change`. -/
def zeroDenomWindow : List Obs :=
  [⟨"A", 0, 0, 0, 0, 0⟩, ⟨"A", 1, 10, 0, 10, 0⟩]

/-- A window for the CFR examples: one row with zero cumulative cases, one with
nonzero cumulative cases. -/
def cfrWindow : List Obs :=
  [⟨"Z", 0, 0, 0, 0, 0⟩, ⟨"Z", 1, 5, 1, 5, 1⟩]

/-- A two-country window used against the ranking claim, with the second
selected country (`"C"`) absent from the window. -/
def cexRankWindow : List Obs :=
  [⟨"A", 0, 5, 1, 5, 1⟩, ⟨"B", 0, 3, 1, 3, 1⟩]

/-- An eleven-country window (country `"K11"` ranked last, below the top 10). -/
def rankWitnessWindow : List Obs :=
  [⟨"K01", 0, 11, 0, 11, 0⟩, ⟨"K02", 0, 10, 0, 10, 0⟩, ⟨"K03", 0, 9, 0, 9, 0⟩,
   ⟨"K04", 0, 8, 0, 8, 0⟩, ⟨"K05", 0, 7, 0, 7, 0⟩, ⟨"K06", 0, 6, 0, 6, 0⟩,
   ⟨"K07", 0, 5, 0, 5, 0⟩, ⟨"K08", 0, 4, 0, 4, 0⟩, ⟨"K09", 0, 3, 0, 3, 0⟩,
   ⟨"K10", 0, 2, 0, 2, 0⟩, ⟨"K11", 0, 1, 0, 1, 0⟩]

/-- A one-country window: selecting that country twice makes the combined
total twice the world total, so the rest-of-world value is negative. -/
def soloWindow : List Obs :=
  [⟨"A", 0, 5, 1, 5, 1⟩]

/-- A second one-country window for the combined-vs-rest identity's negative
case. -/
def negRestWindow : List Obs :=
  [⟨"B", 0, 7, 2, 7, 2⟩]

/-- A raw table whose single row has a whitespace-only country and a negative
(parseable) `New_cases` value. -/
def tBad : RawTable :=
  { hasCountry := true, hasAltCountry := false, hasDateReported := true,
    hasNewCases := true, hasNewDeaths := true, hasCumCases := true,
    hasCumDeaths := true,
    rows := [⟨some "  ", none, some 0, .num (-5), .num 1, .num 2, .num 3⟩] }

/-- A raw table with no `Date_reported` column. -/
def tNoDate : RawTable :=
  { hasCountry := true, hasAltCountry := false, hasDateReported := false,
    hasNewCases := true, hasNewDeaths := true, hasCumCases := true,
    hasCumDeaths := true,
    rows := [⟨some "X", none, some 0, .num 1, .num 1, .num 1, .num 1⟩] }

/-- A raw table with neither a `Country` column nor any column containing
`country`. -/
def tNoCols : RawTable :=
  { hasCountry := false, hasAltCountry := false, hasDateReported := true,
    hasNewCases := true, hasNewDeaths := false, hasCumCases := true,
    hasCumDeaths := true,
    rows := [⟨none, none, some 3, .bad, .null, .num 4, .num 1⟩] }

/-- Loader environment where the two file candidates are missing, no `DATA_URL`
is set, and the GitHub fallback fails with a parse error. -/
def envParseFailLast : LoadEnv :=
  ⟨.notFound, .notFound, none, .otherError "ParserError: bad line"⟩

/-- Loader environment where the working-directory file is missing and the
file beside the script fails with a parse error. -/
def envScriptErr : LoadEnv :=
  ⟨.notFound, .otherError "boom", none, .notFound⟩

/-! ### Helper lemmas about `pct_change` and country filters -/

theorem pctChangeAux_getElem (i : Nat) :
    ∀ (xs : List ℚ) (prev a b : ℚ), (prev :: xs)[i]? = some a → xs[i]? = some b →
      (pctChangeAux prev xs)[i]? = some (pySub1 (pyDiv b a)) := by
  induction i with
  | zero =>
    intro xs prev a b ha hb
    cases xs with
    | nil => simp at hb
    | cons c rest =>
      simp only [List.getElem?_cons_zero, Option.some.injEq] at ha hb
      subst ha; subst hb
      simp [pctChangeAux]
  | succ n ih =>
    intro xs prev a b ha hb
    cases xs with
    | nil => simp at hb
    | cons c rest =>
      have ha' : (c :: rest)[n]? = some a := by simpa using ha
      have hb' : rest[n]? = some b := by simpa using hb
      simpa [pctChangeAux] using ih rest c a b ha' hb'

theorem growthRate_first (l : List ℚ) (h : l ≠ []) :
    ((pctChange l).map fillna0)[0]? = some (PyFloat.num 0) := by
  cases l with
  | nil => exact absurd rfl h
  | cons x xs =>
    simp [pctChange, fillna0]

theorem growthRate_step (l : List ℚ) (i : Nat) (a b : ℚ)
    (ha : l[i]? = some a) (hb : l[i + 1]? = some b) :
    ((pctChange l).map fillna0)[i + 1]? = some (fillna0 (pySub1 (pyDiv b a))) := by
  cases l with
  | nil => simp at ha
  | cons x xs =>
    have hx : (pctChangeAux x xs)[i]? = some (pySub1 (pyDiv b a)) :=
      pctChangeAux_getElem i xs x a b ha (by simpa using hb)
    simp [pctChange, hx]

theorem fillna_div_ne (a b : ℚ) (ha : a ≠ 0) :
    fillna0 (pySub1 (pyDiv b a)) = PyFloat.num ((b - a) / a) := by
  simp only [pyDiv, ha, ne_eq, not_false_iff, if_true, pySub1, fillna0]
  rw [sub_div, div_self ha]

theorem fillna_div_zero (b : ℚ) :
    fillna0 (pySub1 (pyDiv b 0)) =
      if b = 0 then PyFloat.num 0
      else if 0 < b then PyFloat.inf else PyFloat.neginf := by
  by_cases hb : b = 0
  · simp [pyDiv, hb, pySub1, fillna0]
  · rcases lt_or_gt_of_ne hb with h | h
    · simp [pyDiv, hb, pySub1, fillna0, h, not_lt.mpr h.le, asymm h]
    · simp [pyDiv, hb, pySub1, fillna0, h]

theorem countrySeries_country {w : List Obs} {c : String} :
    ∀ r ∈ countrySeries w c, r.country = c := by
  intro r hr
  have h := List.mem_filter.mp hr
  simpa using h.2

theorem filter_countrySeries_self (w : List Obs) (c : String) :
    (countrySeries w c).filter (fun r => r.country = c) = countrySeries w c := by
  apply List.filter_eq_self.mpr
  intro r hr
  simpa using countrySeries_country r hr

theorem filter_countrySeries_ne (w : List Obs) (c c' : String) (h : c ≠ c') :
    (countrySeries w c').filter (fun r => r.country = c) = [] := by
  apply List.filter_eq_nil_iff.mpr
  intro r hr
  have hc := countrySeries_country r hr
  simp [hc, h]
  exact fun habs => h habs.symm

theorem groupRows_eq (w : List Obs) (c1 c2 c : String)
    (hc : c = c1 ∨ c = c2) (hne : c1 ≠ c2) :
    groupRows w c1 c2 c = countrySeries w c := by
  unfold groupRows compareTable
  rw [List.filter_append]
  rcases hc with h | h
  · subst h
    rw [filter_countrySeries_self, filter_countrySeries_ne w c c2 hne,
      List.append_nil]
  · subst h
    rw [filter_countrySeries_self, filter_countrySeries_ne w c c1 (Ne.symm hne),
      List.nil_append]

/-- C1: Growth Rate Series: for each selected country, over that country's
rows of the filtered window taken in ascending date order, the first computed
growth-rate value is exactly 0, and every subsequent value whose previous
metric value is nonzero equals (current − previous)/previous; in particular a
country with new_cases 10, 20, 0 on three consecutive dates yields growth
rates 0, 1.0, −1.0. -/
theorem growth_rate_series_spec :
    (∀ (w : List Obs) (c1 c2 c : String), (c = c1 ∨ c = c2) → c1 ≠ c2 →
      groupRows w c1 c2 c = countrySeries w c) ∧
    (∀ (w : List Obs) (c1 c2 c : String) (m : Metric),
      List.Pairwise (fun a b => a.date < b.date) (groupRows w c1 c2 c) →
      (groupRows w c1 c2 c ≠ [] →
        (growthRateSeries w c1 c2 m c)[0]? = some (PyFloat.num 0)) ∧
      (∀ (i : Nat) (p q : Obs), (groupRows w c1 c2 c)[i]? = some p →
        (groupRows w c1 c2 c)[i + 1]? = some q → metricVal m p ≠ 0 →
        (growthRateSeries w c1 c2 m c)[i + 1]? =
          some (PyFloat.num ((metricVal m q - metricVal m p) / metricVal m p)))) ∧
    growthRateSeries italyWindow "Italy" "France" Metric.New_cases "Italy" =
      [PyFloat.num 0, PyFloat.num 1, PyFloat.num (-1)] := by
  refine ⟨fun w c1 c2 c hc hne => groupRows_eq w c1 c2 c hc hne, ?_, by
    norm_num [growthRateSeries, groupRows, compareTable, countrySeries, italyWindow,
      pctChange, pctChangeAux, pyDiv, pySub1, fillna0, metricVal, List.filter_cons]⟩
  intro w c1 c2 c m _hchain
  constructor
  · intro hne
    have hmap : (groupRows w c1 c2 c).map (metricVal m) ≠ [] := by
      simpa using hne
    exact growthRate_first _ hmap
  · intro i p q hp hq hnz
    have hp' : ((groupRows w c1 c2 c).map (metricVal m))[i]? = some (metricVal m p) := by
      simp [hp]
    have hq' : ((groupRows w c1 c2 c).map (metricVal m))[i + 1]? = some (metricVal m q) := by
      simp [hq]
    have h2 := growthRate_step ((groupRows w c1 c2 c).map (metricVal m)) i
      (metricVal m p) (metricVal m q) hp' hq'
    rw [fillna_div_ne (metricVal m p) (metricVal m q) hnz] at h2
    exact h2

/-- Witness for C1 at the Italy example window. -/
theorem growth_rate_series_spec_witness :
    ("Italy" = "Italy" ∨ "Italy" = "France") ∧
    List.Pairwise (fun a b => a.date < b.date)
      (groupRows italyWindow "Italy" "France" "Italy") ∧
    (growthRateSeries italyWindow "Italy" "France" Metric.New_cases "Italy")[0]? =
      some (PyFloat.num 0) :=
  ⟨Or.inl rfl, by decide,
    (growth_rate_series_spec.2.1 italyWindow "Italy" "France" "Italy"
      Metric.New_cases (by decide)).1 (by decide)⟩

/-- C6 counterexample: in country "A"'s series the metric goes 0 then 10; the
previous value of the second observation is the zero denominator, and the
computed growth rate there is positive infinity, not a zero/null default. -/
theorem growth_zero_denominator_cex :
    (groupRows zeroDenomWindow "A" "B" "A").map (metricVal Metric.New_cases) =
      [0, 10] ∧
    growthRateSeries zeroDenomWindow "A" "B" Metric.New_cases "A" =
      [PyFloat.num 0, PyFloat.inf] := by decide

/-- C6 amended: when the immediately preceding metric value within a country's
series is zero, the growth-rate value is 0 if the current value is also zero
(NaN filled by `fillna(0)`), and otherwise the signed infinity of the current
value — an infinite value, not a zero/null default; no error is raised. -/
theorem growth_zero_denominator_amended :
    ∀ (w : List Obs) (c1 c2 c : String) (m : Metric) (i : Nat) (p q : Obs),
      (groupRows w c1 c2 c)[i]? = some p →
      (groupRows w c1 c2 c)[i + 1]? = some q →
      metricVal m p = 0 →
      (growthRateSeries w c1 c2 m c)[i + 1]? =
        some (if metricVal m q = 0 then PyFloat.num 0
              else if 0 < metricVal m q then PyFloat.inf else PyFloat.neginf) := by
  intro w c1 c2 c m i p q hp hq h0
  have hp' : ((groupRows w c1 c2 c).map (metricVal m))[i]? = some (metricVal m p) := by
    simp [hp]
  have hq' : ((groupRows w c1 c2 c).map (metricVal m))[i + 1]? = some (metricVal m q) := by
    simp [hq]
  have h2 := growthRate_step ((groupRows w c1 c2 c).map (metricVal m)) i
    (metricVal m p) (metricVal m q) hp' hq'
  rw [h0, fillna_div_zero] at h2
  exact h2

/-- Witness for the amended C6 at the zero-denominator window. -/
theorem growth_zero_denominator_amended_witness :
    (groupRows zeroDenomWindow "A" "B" "A")[0]? = some ⟨"A", 0, 0, 0, 0, 0⟩ ∧
    (groupRows zeroDenomWindow "A" "B" "A")[0 + 1]? = some ⟨"A", 1, 10, 0, 10, 0⟩ ∧
    metricVal Metric.New_cases (⟨"A", 0, 0, 0, 0, 0⟩ : Obs) = 0 ∧
    (growthRateSeries zeroDenomWindow "A" "B" Metric.New_cases "A")[0 + 1]? =
      some (if metricVal Metric.New_cases (⟨"A", 1, 10, 0, 10, 0⟩ : Obs) = 0 then
              PyFloat.num 0
            else if 0 < metricVal Metric.New_cases (⟨"A", 1, 10, 0, 10, 0⟩ : Obs) then
              PyFloat.inf
            else PyFloat.neginf) :=
  ⟨by decide, by decide, by decide,
    growth_zero_denominator_amended zeroDenomWindow "A" "B" "A" Metric.New_cases 0
      ⟨"A", 0, 0, 0, 0, 0⟩ ⟨"A", 1, 10, 0, 10, 0⟩ (by decide) (by decide) (by decide)⟩

/-- C3: in the CFR table of the two selected countries, every row's CFR equals
cumulative deaths divided by cumulative cases when cumulative cases is
nonzero, and is the missing value NaN — never an infinity, never an error —
when cumulative cases is zero. -/
theorem cfr_zero_guard :
    ∀ (w : List Obs) (c1 c2 : String) (p : Obs × PyFloat), p ∈ cfrTable w c1 c2 →
      (p.1.cumCases = 0 → p.2 = PyFloat.nan) ∧
      (p.1.cumCases ≠ 0 → p.2 = PyFloat.num (p.1.cumDeaths / p.1.cumCases)) ∧
      p.2 ≠ PyFloat.inf ∧ p.2 ≠ PyFloat.neginf := by
  intro w c1 c2 p hp
  rcases List.mem_map.mp hp with ⟨r, _hr, rfl⟩
  by_cases h : r.cumCases = 0
  · simp [replace0None, pyDivP, h]
  · simp [replace0None, pyDivP, pyDiv, h]

/-- Witness for C3 at a row with zero cumulative cases. -/
theorem cfr_zero_guard_witness :
    ((⟨"Z", 0, 0, 0, 0, 0⟩ : Obs), PyFloat.nan) ∈ cfrTable cfrWindow "Z" "Q" ∧
    (((⟨"Z", 0, 0, 0, 0, 0⟩ : Obs), PyFloat.nan).1.cumCases = 0 →
      ((⟨"Z", 0, 0, 0, 0, 0⟩ : Obs), PyFloat.nan).2 = PyFloat.nan) :=
  ⟨by decide,
    (cfr_zero_guard cfrWindow "Z" "Q" ((⟨"Z", 0, 0, 0, 0, 0⟩ : Obs), PyFloat.nan)
      (by decide)).1⟩

/-! ### Group-sum lemmas: summing the per-key group sums gives the plain sum -/

theorem sum_map_add_q {κ : Type} (l : List κ) (f g : κ → ℚ) :
    (l.map (fun k => f k + g k)).sum = (l.map f).sum + (l.map g).sum := by
  induction l with
  | nil => simp
  | cons x t ih =>
    simp only [List.map_cons, List.sum_cons, ih]
    ring

theorem sum_map_ite_zero {κ : Type} [DecidableEq κ] (a : κ) (v : ℚ) :
    ∀ (ks : List κ), a ∉ ks → (ks.map (fun k => if a = k then v else 0)).sum = 0 := by
  intro ks
  induction ks with
  | nil => simp
  | cons x t ih =>
    intro h
    have hx : a ≠ x := fun e => h (by simp [e])
    have ht : a ∉ t := fun e => h (List.mem_cons_of_mem _ e)
    simp [hx, ih ht]

theorem sum_map_ite_single {κ : Type} [DecidableEq κ] (a : κ) (v : ℚ) :
    ∀ (ks : List κ), ks.Nodup → a ∈ ks →
      (ks.map (fun k => if a = k then v else 0)).sum = v := by
  intro ks
  induction ks with
  | nil => simp
  | cons x t ih =>
    intro hnd hmem
    rcases List.mem_cons.mp hmem with h | h
    · subst h
      have hnt : a ∉ t := (List.nodup_cons.mp hnd).1
      simp [sum_map_ite_zero a v t hnt]
    · have hax : a ≠ x := by
        rintro rfl
        exact (List.nodup_cons.mp hnd).1 h
      simp [hax, ih (List.nodup_cons.mp hnd).2 h]

theorem sum_fiber {α κ : Type} [DecidableEq κ] (key : α → κ) (f : α → ℚ) :
    ∀ (l : List α) (ks : List κ), ks.Nodup → (∀ x ∈ l, key x ∈ ks) →
      (ks.map (fun k => ((l.filter (fun x => key x = k)).map f).sum)).sum =
        (l.map f).sum := by
  intro l
  induction l with
  | nil =>
    intro ks _ _
    simp
  | cons x t ih =>
    intro ks hnd hcov
    have hx : key x ∈ ks := hcov x (List.mem_cons_self x t)
    have hcov' : ∀ y ∈ t, key y ∈ ks := fun y hy => hcov y (List.mem_cons_of_mem x hy)
    have hfun : (fun k => (((x :: t).filter (fun y => key y = k)).map f).sum) =
        (fun k => (if key x = k then f x else 0) +
          ((t.filter (fun y => key y = k)).map f).sum) := by
      funext k
      by_cases h : key x = k
      · simp [List.filter_cons, h]
      · simp [List.filter_cons, h]
    rw [hfun, sum_map_add_q, sum_map_ite_single (key x) (f x) ks hnd hx, ih ks hnd hcov']
    simp

theorem dailySum_total (l : List Obs) (m : Metric) :
    ((dailySum l m).map (·.2)).sum = (l.map (metricVal m)).sum := by
  unfold dailySum
  rw [List.map_map]
  have hnd : (List.insertionSort (· ≤ ·) ((l.map (·.date)).dedup)).Nodup :=
    ((List.perm_insertionSort _ _).nodup_iff).mpr (List.nodup_dedup _)
  have hcov : ∀ x ∈ l, x.date ∈ List.insertionSort (· ≤ ·) ((l.map (·.date)).dedup) := by
    intro x hx
    rw [(List.perm_insertionSort _ _).mem_iff]
    exact List.mem_dedup.mpr (List.mem_map_of_mem _ hx)
  exact sum_fiber (·.date) (metricVal m) l _ hnd hcov

theorem totalTwo_eq (w : List Obs) (c1 c2 : String) (m : Metric) :
    totalTwo w c1 c2 m = ((compareTable w c1 c2).map (metricVal m)).sum :=
  dailySum_total _ _

theorem totalWorld_eq (w : List Obs) (m : Metric) :
    totalWorld w m = (w.map (metricVal m)).sum :=
  dailySum_total _ _

/-- C2: for every filtered window, metric and pair of selected countries, the
combined two-country total plus the rest-of-world total equals the global
total exactly (rest-of-world being defined as global minus combined), and a
negative rest-of-world value is reported as-is, not corrected. -/
theorem combined_rest_world_total_identity :
    (∀ (w : List Obs) (c1 c2 : String) (m : Metric),
      totalTwo w c1 c2 m + totalRest w c1 c2 m = totalWorld w m) ∧
    totalRest negRestWindow "B" "B" Metric.New_cases = -7 ∧
    totalRest negRestWindow "B" "B" Metric.New_cases < 0 := by
  have h7 : totalRest negRestWindow "B" "B" Metric.New_cases = -7 := by
    norm_num [totalRest, totalWorld, totalTwo, dailySum, compareTable, countrySeries,
      negRestWindow, List.insertionSort, List.orderedInsert, metricVal,
      List.filter_cons]
  exact ⟨fun w c1 c2 m => by rw [totalRest]; ring, h7, by rw [h7]; norm_num⟩

/-- C10: selecting the same country for both selectors double-counts it: the
concatenated table holds every row of that country twice, the combined total
is exactly twice the single-country total, and the reported rest-of-world
value is the global total minus the doubled sum — negative even on
self-consistent data, as on a window holding only that country. -/
theorem same_country_double_count :
    (∀ (w : List Obs) (c : String),
      compareTable w c c = countrySeries w c ++ countrySeries w c) ∧
    (∀ (w : List Obs) (c : String) (m : Metric),
      totalTwo w c c m = 2 * countryTotal w m c) ∧
    (∀ (w : List Obs) (c : String) (m : Metric),
      totalRest w c c m = totalWorld w m - 2 * countryTotal w m c) ∧
    totalRest soloWindow "A" "A" Metric.New_cases = -5 := by
  have h2 : ∀ (w : List Obs) (c : String) (m : Metric),
      totalTwo w c c m = 2 * countryTotal w m c := by
    intro w c m
    rw [totalTwo_eq, compareTable, List.map_append, List.sum_append, countryTotal,
      two_mul]
  refine ⟨fun w c => rfl, h2, fun w c m => by rw [totalRest, h2], ?_⟩
  norm_num [totalRest, totalWorld, totalTwo, dailySum, compareTable, countrySeries,
    soloWindow, List.insertionSort, List.orderedInsert, metricVal, List.filter_cons]

/-- C8: every aggregation applied to an empty filtered window yields an empty
or zero-valued result, and a selected country with zero rows in the window
makes the pairwise aggregations empty/zero as well; nothing is an error. -/
theorem aggregations_total_on_empty :
    (∀ (c1 c2 c : String) (m : Metric),
      growthRateSeries [] c1 c2 m c = [] ∧ cfrTable [] c1 c2 = [] ∧
      globalDaily [] = [] ∧ dailySum [] m = [] ∧ totalTwo [] c1 c2 m = 0 ∧
      totalWorld [] m = 0 ∧ totalRest [] c1 c2 m = 0 ∧ rankTable [] m = [] ∧
      topTable [] c1 c2 m = []) ∧
    (∀ (w : List Obs) (c1 c2 c : String) (m : Metric),
      countrySeries w c1 = [] → countrySeries w c2 = [] →
      compareTable w c1 c2 = [] ∧ growthRateSeries w c1 c2 m c = [] ∧
      cfrTable w c1 c2 = [] ∧ totalTwo w c1 c2 m = 0) ∧
    (∀ (w : List Obs) (m : Metric) (c : String),
      countrySeries w c = [] → countryTotal w m c = 0) := by
  refine ⟨?_, ?_, ?_⟩
  · intro c1 c2 c m
    simp [growthRateSeries, groupRows, compareTable, countrySeries, cfrTable,
      globalDaily, dailySum, totalTwo, totalWorld, totalRest, rankTable,
      countryKeys, topTable, topAppend, pctChange]
  · intro w c1 c2 c m h1 h2
    have hcmp : compareTable w c1 c2 = [] := by
      rw [compareTable, h1, h2]
      rfl
    refine ⟨hcmp, ?_, ?_, ?_⟩
    · simp [growthRateSeries, groupRows, hcmp, pctChange]
    · simp [cfrTable, hcmp]
    · simp [totalTwo, hcmp, dailySum]
  · intro w m c h
    simp [countryTotal, h]

/-- Witness for C8: a country absent from a nonempty window. -/
theorem aggregations_total_on_empty_witness :
    countrySeries italyWindow "X" = [] ∧ countrySeries italyWindow "Y" = [] ∧
    compareTable italyWindow "X" "Y" = [] :=
  ⟨by decide, by decide,
    (aggregations_total_on_empty.2.1 italyWindow "X" "Y" "X" Metric.New_cases
      (by decide) (by decide)).1⟩

/-! ### Ranking-table lemmas -/

theorem rank_keys_perm (w : List Obs) (m : Metric) :
    ((rankTable w m).map (·.1)).Perm (countryKeys w) := by
  have h1 : (rankTable w m).Perm
      ((List.insertionSort (· ≤ ·) (countryKeys w)).map
        (fun c => (c, countryTotal w m c))) := List.perm_insertionSort _ _
  have h2 := h1.map (·.1)
  rw [List.map_map] at h2
  have h3 : ((·.1) ∘ fun c => (c, countryTotal w m c)) = (id : String → String) := rfl
  rw [h3, List.map_id] at h2
  exact h2.trans (List.perm_insertionSort _ _)

theorem rank_keys_nodup (w : List Obs) (m : Metric) :
    ((rankTable w m).map (·.1)).Nodup :=
  (rank_keys_perm w m).nodup_iff.mpr (List.nodup_dedup _)

theorem rank_length (w : List Obs) (m : Metric) :
    (rankTable w m).length = (countryKeys w).length := by
  have h := (rank_keys_perm w m).length_eq
  simpa using h

theorem mem_rank_keys (w : List Obs) (m : Metric) {c : String}
    (h : c ∈ countryKeys w) : c ∈ (rankTable w m).map (·.1) :=
  (rank_keys_perm w m).mem_iff.mpr h

theorem length_filter_key_le (c : String) :
    ∀ (l : List (String × ℚ)), (l.map (·.1)).Nodup →
      (l.filter (fun p => p.1 = c)).length ≤ 1 := by
  intro l
  induction l with
  | nil => simp
  | cons x t ih =>
    intro hnd
    rw [List.map_cons, List.nodup_cons] at hnd
    by_cases h : x.1 = c
    · have ht : t.filter (fun p => p.1 = c) = [] := by
        apply List.filter_eq_nil_iff.mpr
        intro p hp
        simp only [decide_eq_true_eq]
        intro hpc
        exact hnd.1 (by rw [h, ← hpc]; exact List.mem_map_of_mem _ hp)
      simp [List.filter_cons, h, ht]
    · simp only [List.filter_cons, h, decide_eq_true_eq, if_false, decide_False]
      exact le_trans (by simp [h]) (ih hnd.2)

theorem topAppend_keys_nodup (rank top : List (String × ℚ)) (sel : String)
    (hrank : (rank.map (·.1)).Nodup) (htop : (top.map (·.1)).Nodup) :
    ((topAppend rank top sel).map (·.1)).Nodup := by
  unfold topAppend
  by_cases h : sel ∈ top.map (·.1)
  · simpa [h] using htop
  · rw [if_neg h, List.map_append]
    apply List.Nodup.append htop
    · exact List.Nodup.sublist ((List.filter_sublist _).map _) hrank
    · intro a ha hb
      rcases List.mem_map.mp hb with ⟨p, hp, rfl⟩
      have hps : p.1 = sel := by simpa using (List.mem_filter.mp hp).2
      exact h (hps ▸ ha)

theorem topAppend_length_le (rank top : List (String × ℚ)) (sel : String)
    (hrank : (rank.map (·.1)).Nodup) :
    (topAppend rank top sel).length ≤ top.length + 1 := by
  unfold topAppend
  by_cases h : sel ∈ top.map (·.1)
  · simp [h]
  · rw [if_neg h, List.length_append]
    have hf := length_filter_key_le sel rank hrank
    omega

theorem le_topAppend_length (rank top : List (String × ℚ)) (sel : String) :
    top.length ≤ (topAppend rank top sel).length := by
  unfold topAppend
  by_cases h : sel ∈ top.map (·.1)
  · simp [h]
  · simp [h, List.length_append]

theorem topAppend_keys_mono (rank top : List (String × ℚ)) (sel : String)
    {a : String} (ha : a ∈ top.map (·.1)) :
    a ∈ (topAppend rank top sel).map (·.1) := by
  unfold topAppend
  by_cases h : sel ∈ top.map (·.1)
  · simpa [h] using ha
  · rw [if_neg h, List.map_append]
    exact List.mem_append_left _ ha

theorem topAppend_sel_mem (rank top : List (String × ℚ)) (sel : String)
    (hsel : sel ∈ rank.map (·.1)) :
    sel ∈ (topAppend rank top sel).map (·.1) := by
  unfold topAppend
  by_cases h : sel ∈ top.map (·.1)
  · rwa [if_pos h]
  · rw [if_neg h, List.map_append]
    apply List.mem_append_right
    rcases List.mem_map.mp hsel with ⟨p, hp, rfl⟩
    exact List.mem_map_of_mem _ (List.mem_filter.mpr ⟨hp, by simp⟩)

theorem topAppend_take (rank top : List (String × ℚ)) (sel : String) (n : Nat)
    (hn : n ≤ top.length) :
    (topAppend rank top sel).take n = top.take n := by
  unfold topAppend
  by_cases h : sel ∈ top.map (·.1)
  · simp [h]
  · rw [if_neg h, List.take_append_of_le_length hn]

/-- C4 counterexample: on a window with two countries and a second selected
country absent from the window, the ranking table has 2 rows (not 10, 11 or
12), does not contain the absent selected country, and tags the selected row
with the country name suffixed " (Selected)" rather than the bare tag
"Selected". -/
theorem top_ranking_cex :
    (topTable cexRankWindow "A" "C" Metric.New_cases).length = 2 ∧
    ((topTable cexRankWindow "A" "C" Metric.New_cases).map (·.1)).contains "C" = false ∧
    ("A", 5, "A (Selected)") ∈ topTagged cexRankWindow "A" "C" Metric.New_cases ∧
    ((topTagged cexRankWindow "A" "C" Metric.New_cases).map (·.2.2)).contains "Selected" =
      false := by
  have hA : countryTotal cexRankWindow Metric.New_cases "A" = 5 := by
    simp [countryTotal, countrySeries, cexRankWindow, metricVal]
  have hB : countryTotal cexRankWindow Metric.New_cases "B" = 3 := by
    simp [countryTotal, countrySeries, cexRankWindow, metricVal]
  have hr : rankTable cexRankWindow Metric.New_cases = [("A", 5), ("B", 3)] := by
    have hkeys : List.insertionSort (· ≤ ·) (countryKeys cexRankWindow) = ["A", "B"] := by
      have h0 : countryKeys cexRankWindow = ["A", "B"] := by decide
      rw [h0]
      simp [List.insertionSort, List.orderedInsert]
      decide
    unfold rankTable
    rw [hkeys, List.map_cons, List.map_cons, List.map_nil, hA, hB]
    norm_num [List.insertionSort, List.orderedInsert, rankLE]
  have ht : topTable cexRankWindow "A" "C" Metric.New_cases = [("A", 5), ("B", 3)] := by
    unfold topTable
    rw [hr]
    simp [topAppend, List.filter_cons]
  refine ⟨by rw [ht]; rfl, by rw [ht]; decide, ?_, ?_⟩
  · unfold topTagged
    rw [ht]
    decide
  · unfold topTagged
    rw [ht]
    decide

/-- C4 amended: the ranking table is the per-country sums of the window sorted
descending, truncated to the top 10, with each selected country's row appended
when it appears in the window and is not already included; it has no duplicate
country rows, at most 12 rows, at least 10 rows (agreeing with the sorted
table on the first 10) whenever the window has at least 10 distinct countries,
and contains every selected country that has rows in the window (a selected
country with no rows in the window is simply absent); each row is tagged with
its country name suffixed " (Selected)" when selected, else "Other". -/
theorem top_ranking_amended :
    ∀ (w : List Obs) (c1 c2 : String) (m : Metric),
      ((topTable w c1 c2 m).map (·.1)).Nodup ∧
      (topTable w c1 c2 m).length ≤ 12 ∧
      (10 ≤ (countryKeys w).length → 10 ≤ (topTable w c1 c2 m).length ∧
        (topTable w c1 c2 m).take 10 = (rankTable w m).take 10) ∧
      (∀ c : String, (c = c1 ∨ c = c2) → c ∈ countryKeys w →
        c ∈ (topTable w c1 c2 m).map (·.1)) ∧
      List.Sorted rankLE (rankTable w m) ∧
      (∀ p ∈ topTagged w c1 c2 m,
        ((p.1 = c1 ∨ p.1 = c2) → p.2.2 = p.1 ++ " (Selected)") ∧
        (¬(p.1 = c1 ∨ p.1 = c2) → p.2.2 = "Other")) := by
  intro w c1 c2 m
  have hrk : ((rankTable w m).map (·.1)).Nodup := rank_keys_nodup w m
  have htop : (((rankTable w m).take 10).map (·.1)).Nodup := by
    rw [List.map_take]
    exact List.Nodup.sublist (List.take_sublist _ _) hrk
  have h1top : ((topAppend (rankTable w m) ((rankTable w m).take 10) c1).map
      (·.1)).Nodup := topAppend_keys_nodup _ _ _ hrk htop
  have hlen_top : ((rankTable w m).take 10).length ≤ 10 := by
    rw [List.length_take]
    omega
  refine ⟨topAppend_keys_nodup _ _ _ hrk h1top, ?_, ?_, ?_, ?_, ?_⟩
  · have e1 := topAppend_length_le (rankTable w m)
      (topAppend (rankTable w m) ((rankTable w m).take 10) c1) c2 hrk
    have e2 := topAppend_length_le (rankTable w m) ((rankTable w m).take 10) c1 hrk
    show (topAppend _ _ c2).length ≤ 12
    omega
  · intro h10
    have hlen : ((rankTable w m).take 10).length = 10 := by
      rw [List.length_take, rank_length]
      omega
    have hle1 : 10 ≤ (topAppend (rankTable w m) ((rankTable w m).take 10) c1).length := by
      have := le_topAppend_length (rankTable w m) ((rankTable w m).take 10) c1
      omega
    constructor
    · have := le_topAppend_length (rankTable w m)
        (topAppend (rankTable w m) ((rankTable w m).take 10) c1) c2
      show 10 ≤ (topAppend _ _ c2).length
      omega
    · have e1 : (topTable w c1 c2 m).take 10 =
          (topAppend (rankTable w m) ((rankTable w m).take 10) c1).take 10 :=
        topAppend_take _ _ _ 10 hle1
      have e2 : (topAppend (rankTable w m) ((rankTable w m).take 10) c1).take 10 =
          ((rankTable w m).take 10).take 10 :=
        topAppend_take _ _ _ 10 (le_of_eq hlen.symm)
      rw [e1, e2]
      simp [List.take_take]
  · intro c hc hck
    have hcr : c ∈ (rankTable w m).map (·.1) := mem_rank_keys w m hck
    rcases hc with h | h
    · subst h
      exact topAppend_keys_mono _ _ _ (topAppend_sel_mem _ _ _ hcr)
    · subst h
      exact topAppend_sel_mem _ _ _ hcr
  · exact List.sorted_insertionSort rankLE _
  · intro p hp
    rcases List.mem_map.mp hp with ⟨q, _hq, rfl⟩
    constructor
    · intro h
      simp [selectedTag, h]
    · intro h
      simp [selectedTag, h]

/-- Witness for the amended C4 on an eleven-country window with the
last-ranked country selected. -/
theorem top_ranking_amended_witness :
    10 ≤ (countryKeys rankWitnessWindow).length ∧
    ("K11" = "K11" ∨ "K11" = "K01") ∧ "K11" ∈ countryKeys rankWitnessWindow ∧
    10 ≤ (topTable rankWitnessWindow "K11" "K01" Metric.New_cases).length ∧
    "K11" ∈ (topTable rankWitnessWindow "K11" "K01" Metric.New_cases).map (·.1) :=
  ⟨by decide, Or.inl rfl, by decide,
    ((top_ranking_amended rankWitnessWindow "K11" "K01" Metric.New_cases).2.2.1
      (by decide)).1,
    (top_ranking_amended rankWitnessWindow "K11" "K01" Metric.New_cases).2.2.2.1
      "K11" (Or.inl rfl) (by decide)⟩

/-- C5 counterexample: a row whose source country is whitespace-only comes out
of `preprocess` with an empty (length-0) country string, and a parseable
negative `New_cases` value survives as a negative number. -/
theorem preprocess_invariant_cex :
    preprocess tBad =
      Except.ok [⟨"", some 0, some (-5), some 1, some 2, some 3⟩] ∧
    (⟨"", some 0, some (-5), some 1, some 2, some 3⟩ : CleanRow).country.length = 0 ∧
    ((-5 : ℚ) < 0) :=
  ⟨rfl, rfl, by decide⟩

/-- C5 amended: every output row of `preprocess` comes from cleaning an input
row: the country is the strip of the source country string ("Unknown" for a
null or absent source, hence possibly empty when the source was
whitespace-only); each of the four numeric fields present in the input is
non-null, is exactly 0 when the source cell was null or unparseable, and is
otherwise the source value unchanged — including negative values, which are
not clamped. -/
theorem preprocess_invariant_amended :
    ∀ (t : RawTable) (out : List CleanRow), preprocess t = Except.ok out →
      out.length = t.rows.length ∧
      ∀ r ∈ out, ∃ s ∈ t.rows, r = cleanRow t s ∧
        (∀ cs, rawCountry t s = some cs → r.country = stripStr cs) ∧
        (rawCountry t s = none → r.country = "Unknown") ∧
        (t.hasNewCases = true →
          ((s.newCases = RawCell.null ∨ s.newCases = RawCell.bad) →
            r.newCases = some 0) ∧
          ∀ q : ℚ, s.newCases = RawCell.num q → r.newCases = some q) ∧
        (t.hasNewCases = false → r.newCases = none) ∧
        (t.hasNewDeaths = true →
          ((s.newDeaths = RawCell.null ∨ s.newDeaths = RawCell.bad) →
            r.newDeaths = some 0) ∧
          ∀ q : ℚ, s.newDeaths = RawCell.num q → r.newDeaths = some q) ∧
        (t.hasNewDeaths = false → r.newDeaths = none) ∧
        (t.hasCumCases = true →
          ((s.cumCases = RawCell.null ∨ s.cumCases = RawCell.bad) →
            r.cumCases = some 0) ∧
          ∀ q : ℚ, s.cumCases = RawCell.num q → r.cumCases = some q) ∧
        (t.hasCumCases = false → r.cumCases = none) ∧
        (t.hasCumDeaths = true →
          ((s.cumDeaths = RawCell.null ∨ s.cumDeaths = RawCell.bad) →
            r.cumDeaths = some 0) ∧
          ∀ q : ℚ, s.cumDeaths = RawCell.num q → r.cumDeaths = some q) ∧
        (t.hasCumDeaths = false → r.cumDeaths = none) := by
  intro t out hok
  rw [preprocess] at hok
  by_cases hd : t.hasDateReported
  · rw [if_pos hd] at hok
    have hout : out = t.rows.map (cleanRow t) := (Except.ok.injEq _ _).mp hok |>.symm
    subst hout
    refine ⟨by simp, ?_⟩
    intro r hr
    rcases List.mem_map.mp hr with ⟨s, hs, rfl⟩
    refine ⟨s, hs, rfl, ?_, ?_, ?_, ?_, ?_, ?_, ?_, ?_, ?_, ?_⟩
    · intro cs hcs
      simp [cleanRow, hcs]
    · intro hnone
      simp [cleanRow, hnone]
      decide
    · intro h
      exact ⟨fun hsrc => by rcases hsrc with h2 | h2 <;>
          simp [cleanRow, h, h2, toNumericFill0],
        fun q hq => by simp [cleanRow, h, hq, toNumericFill0]⟩
    · intro h
      simp [cleanRow, h]
    · intro h
      exact ⟨fun hsrc => by rcases hsrc with h2 | h2 <;>
          simp [cleanRow, h, h2, toNumericFill0],
        fun q hq => by simp [cleanRow, h, hq, toNumericFill0]⟩
    · intro h
      simp [cleanRow, h]
    · intro h
      exact ⟨fun hsrc => by rcases hsrc with h2 | h2 <;>
          simp [cleanRow, h, h2, toNumericFill0],
        fun q hq => by simp [cleanRow, h, hq, toNumericFill0]⟩
    · intro h
      simp [cleanRow, h]
    · intro h
      exact ⟨fun hsrc => by rcases hsrc with h2 | h2 <;>
          simp [cleanRow, h, h2, toNumericFill0],
        fun q hq => by simp [cleanRow, h, hq, toNumericFill0]⟩
    · intro h
      simp [cleanRow, h]
  · rw [if_neg hd] at hok
    exact absurd hok (by simp)

/-- Witness for the amended C5 at the whitespace-country table. -/
theorem preprocess_invariant_amended_witness :
    preprocess tBad = Except.ok (tBad.rows.map (cleanRow tBad)) ∧
    (tBad.rows.map (cleanRow tBad)).length = tBad.rows.length :=
  ⟨rfl, (preprocess_invariant_amended tBad _ rfl).1⟩

/-- C7 counterexample: a table without a `Date_reported` column makes
`preprocess` fail (the unconditional `df["Date_reported"]` lookup raises
`KeyError`), so `preprocess` is not total over tables missing that column. -/
theorem preprocess_totality_cex :
    preprocess tNoDate = Except.error "KeyError: Date_reported" ∧
    (preprocess tNoDate).toOption = none :=
  ⟨rfl, rfl⟩

/-- C7 amended: `preprocess` succeeds on every table that has a
`Date_reported` column, keeping one output row per input row; a missing
country column (and no column containing "country") degrades to the constant
"Unknown", and missing numeric columns are simply left absent. -/
theorem preprocess_totality_amended :
    ∀ t : RawTable, t.hasDateReported = true →
      ∃ out, preprocess t = Except.ok out ∧ out.length = t.rows.length ∧
        (t.hasCountry = false → t.hasAltCountry = false →
          ∀ r ∈ out, r.country = "Unknown") ∧
        (t.hasNewDeaths = false → ∀ r ∈ out, r.newDeaths = none) := by
  intro t hd
  refine ⟨t.rows.map (cleanRow t), by simp [preprocess, hd], by simp, ?_, ?_⟩
  · intro hc ha r hr
    rcases List.mem_map.mp hr with ⟨s, _hs, rfl⟩
    simp [cleanRow, rawCountry, hc, ha]
    decide
  · intro h r hr
    rcases List.mem_map.mp hr with ⟨s, _hs, rfl⟩
    simp [cleanRow, h]

/-- Witness for the amended C7 at a table with no country and no new-deaths
column. -/
theorem preprocess_totality_amended_witness :
    tNoCols.hasDateReported = true ∧
    ∃ out, preprocess tNoCols = Except.ok out ∧
      out.length = tNoCols.rows.length ∧
      (tNoCols.hasCountry = false → tNoCols.hasAltCountry = false →
        ∀ r ∈ out, r.country = "Unknown") ∧
      (tNoCols.hasNewDeaths = false → ∀ r ∈ out, r.newDeaths = none) :=
  ⟨rfl, preprocess_totality_amended tNoCols rfl⟩

/-! ### Loader control-flow lemmas -/

theorem loadLoop_none :
    ∀ l : List (String × SrcOutcome),
      (∀ x ∈ l, x.2 = SrcOutcome.notFound) → loadLoop l = none := by
  intro l
  induction l with
  | nil => intro _; rfl
  | cons x t ih =>
    intro h
    obtain ⟨p, o⟩ := x
    have ho : o = SrcOutcome.notFound := h (p, o) (List.mem_cons_self _ _)
    subst ho
    simpa [loadLoop] using ih (fun y hy => h y (List.mem_cons_of_mem _ hy))

theorem loadLoop_err (p e : String) :
    ∀ (pre post : List (String × SrcOutcome)),
      (∀ x ∈ pre, x.2 = SrcOutcome.notFound) →
      loadLoop (pre ++ (p, SrcOutcome.otherError e) :: post) =
        some (LoadResult.errorStop p e) := by
  intro pre
  induction pre with
  | nil => intro post _; rfl
  | cons x t ih =>
    intro post h
    obtain ⟨q, o⟩ := x
    have ho : o = SrcOutcome.notFound := h (q, o) (List.mem_cons_self _ _)
    subst ho
    simpa [loadLoop] using ih post (fun y hy => h y (List.mem_cons_of_mem _ hy))

theorem loadLoop_ok (p : String) (rows : List RawRow) :
    ∀ (pre post : List (String × SrcOutcome)),
      (∀ x ∈ pre, x.2 = SrcOutcome.notFound) →
      loadLoop (pre ++ (p, SrcOutcome.ok rows) :: post) =
        some (LoadResult.loaded rows) := by
  intro pre
  induction pre with
  | nil => intro post _; rfl
  | cons x t ih =>
    intro post h
    obtain ⟨q, o⟩ := x
    have ho : o = SrcOutcome.notFound := h (q, o) (List.mem_cons_self _ _)
    subst ho
    simpa [loadLoop] using ih post (fun y hy => h y (List.mem_cons_of_mem _ hy))

/-- C9 counterexample: with both file candidates missing, no `DATA_URL`, and
the hardcoded GitHub URL failing with a parse error (not a file-not-found),
the loader ends in the generic remediation stop — not in an error naming the
failing candidate and the underlying cause, as the claim requires for every
candidate's non-file-not-found failure. -/
theorem load_data_policy_cex :
    envParseFailLast.githubRaw = SrcOutcome.otherError "ParserError: bad line" ∧
    load_data envParseFailLast = LoadResult.remediationStop :=
  ⟨rfl, rfl⟩

/-- C9 amended: over the first three candidates (working-directory file, file
beside the script, optional environment URL), a file-not-found failure
silently advances and any other failure halts with an error naming that
candidate and its cause; the fourth, hardcoded-URL candidate is tried only
when the loop exhausts, and ANY failure of it — file-not-found or parse or
network — leads to the remediation-message halt; a success anywhere returns
the data. -/
theorem load_data_policy_amended :
    ∀ env : LoadEnv,
      (∀ (pre : List (String × SrcOutcome)) (p e : String)
          (post : List (String × SrcOutcome)),
        tryPaths env = pre ++ (p, SrcOutcome.otherError e) :: post →
        (∀ x ∈ pre, x.2 = SrcOutcome.notFound) →
        load_data env = LoadResult.errorStop p e) ∧
      (∀ (pre : List (String × SrcOutcome)) (p : String) (rows : List RawRow)
          (post : List (String × SrcOutcome)),
        tryPaths env = pre ++ (p, SrcOutcome.ok rows) :: post →
        (∀ x ∈ pre, x.2 = SrcOutcome.notFound) →
        load_data env = LoadResult.loaded rows) ∧
      ((∀ x ∈ tryPaths env, x.2 = SrcOutcome.notFound) →
        (∀ rows, env.githubRaw = SrcOutcome.ok rows →
          load_data env = LoadResult.loaded rows) ∧
        (env.githubRaw = SrcOutcome.notFound →
          load_data env = LoadResult.remediationStop) ∧
        (∀ msg, env.githubRaw = SrcOutcome.otherError msg →
          load_data env = LoadResult.remediationStop)) := by
  intro env
  refine ⟨?_, ?_, ?_⟩
  · intro pre p e post heq h
    have hl : loadLoop (tryPaths env) = some (LoadResult.errorStop p e) := by
      rw [heq]
      exact loadLoop_err p e pre post h
    simp [load_data, hl]
  · intro pre p rows post heq h
    have hl : loadLoop (tryPaths env) = some (LoadResult.loaded rows) := by
      rw [heq]
      exact loadLoop_ok p rows pre post h
    simp [load_data, hl]
  · intro h
    have hl := loadLoop_none _ h
    refine ⟨?_, ?_, ?_⟩
    · intro rows hg
      simp [load_data, hl, hg]
    · intro hg
      simp [load_data, hl, hg]
    · intro msg hg
      simp [load_data, hl, hg]

/-- Witness for the amended C9: the working-directory file is missing and the
file beside the script fails with a parse error, so the loader stops with an
error naming that candidate and cause. -/
theorem load_data_policy_amended_witness :
    tryPaths envScriptErr =
      [(whoFilename, SrcOutcome.notFound)] ++
        (scriptSideFile, SrcOutcome.otherError "boom") :: [] ∧
    load_data envScriptErr = LoadResult.errorStop scriptSideFile "boom" :=
  ⟨rfl,
    (load_data_policy_amended envScriptErr).1 [(whoFilename, SrcOutcome.notFound)]
      scriptSideFile "boom" [] rfl (by decide)⟩
